import Mathlib

/-!
Verification of the JS/TS top-level side-effect linter (`side-effects-linter.js`).

The linter scans each file line by line.  A small state machine tracks whether
the current line is inside a `function`/`class` block; module-scope lines are
first checked against ignore regexes and then against side-effect regexes, and
a matching line yields a finding whose reason is derived by `explainSideEffect`.

JavaScript regexes are embedded as a small regular-expression datatype with
Brzozowski-derivative matching.  `RegExp.test` (search anywhere) is modelled by
padding the regex with `anyChar*`; `^`-anchored regexes use a start-only pad
and `^...$` regexes are matched against the whole line.
-/

namespace SideEffectsLinter

/-- JS `\w` character class: `[A-Za-z0-9_]`. -/
def isWordChar (c : Char) : Bool := c.isAlpha || c.isDigit || c = '_'

/-- JS `[a-zA-Z]`. -/
def isAsciiLetter (c : Char) : Bool := c.isAlpha

/-- JS `\s` character class (WhiteSpace and LineTerminator code points). -/
def isSpaceJs (c : Char) : Bool :=
  c = ' ' || c = '\t' || c = '\n' || c = '\x0b' || c = '\x0c' || c = '\r' ||
  c = '\u00A0' || c = '\u1680' ||
  c = '\u2000' || c = '\u2001' || c = '\u2002' || c = '\u2003' || c = '\u2004' ||
  c = '\u2005' || c = '\u2006' || c = '\u2007' || c = '\u2008' || c = '\u2009' ||
  c = '\u200A' ||
  c = '\u2028' || c = '\u2029' || c = '\u202F' || c = '\u205F' ||
  c = '\u3000' || c = '\uFEFF'

/-- JS regex `.` (without the `s` flag): any char except a line terminator. -/
def isDotAny (c : Char) : Bool := !(c = '\n' || c = '\r' || c = '\u2028' || c = '\u2029')

/-- JS `[a-zA-Z0-9_$.]`. -/
def isCallIdentChar (c : Char) : Bool := isWordChar c || c = '$' || c = '.'

/-- Character classes occurring in the linter's regexes. -/
inductive CC where
  | lit : Char → CC
  | cilit : Char → CC
  | word : CC
  | space : CC
  | spaceOrDot : CC
  | callIdent : CC
  | dotAny : CC
  | anyChar : CC
  | alpha : CC
  | nonWord : CC
deriving DecidableEq, Repr

def CC.holds : CC → Char → Bool
  | .lit a, c => c = a
  | .cilit a, c => c.toLower = a.toLower
  | .word, c => isWordChar c
  | .space, c => isSpaceJs c
  | .spaceOrDot, c => isSpaceJs c || c = '.'
  | .callIdent, c => isCallIdentChar c
  | .dotAny, c => isDotAny c
  | .anyChar, _ => true
  | .alpha, c => isAsciiLetter c
  | .nonWord, c => !(isWordChar c)

/-- Regular expressions over `Char` with character classes. -/
inductive Regex where
  | emp : Regex
  | eps : Regex
  | cls : CC → Regex
  | cat : Regex → Regex → Regex
  | alt : Regex → Regex → Regex
  | star : Regex → Regex
deriving DecidableEq, Repr

/-- Smart concatenation (keeps derivatives small). -/
def Regex.catS : Regex → Regex → Regex
  | .emp, _ => .emp
  | _, .emp => .emp
  | .eps, r => r
  | r, .eps => r
  | r₁, r₂ => .cat r₁ r₂

/-- Smart alternation (keeps derivatives small). -/
def Regex.altS : Regex → Regex → Regex
  | .emp, r => r
  | r, .emp => r
  | r₁, r₂ => .alt r₁ r₂

def Regex.nullable : Regex → Bool
  | .emp => false
  | .eps => true
  | .cls _ => false
  | .cat r₁ r₂ => r₁.nullable && r₂.nullable
  | .alt r₁ r₂ => r₁.nullable || r₂.nullable
  | .star _ => true

/-- Brzozowski derivative. -/
def Regex.deriv : Regex → Char → Regex
  | .emp, _ => .emp
  | .eps, _ => .emp
  | .cls k, c => if k.holds c then .eps else .emp
  | .cat r₁ r₂, c =>
    if r₁.nullable then .altS (.catS (r₁.deriv c) r₂) (r₂.deriv c)
    else .catS (r₁.deriv c) r₂
  | .alt r₁ r₂, c => .altS (r₁.deriv c) (r₂.deriv c)
  | .star r, c => .catS (r.deriv c) (.star r)

/-- Whole-list matching by iterated derivatives. -/
def Regex.matchesL : Regex → List Char → Bool
  | r, [] => r.nullable
  | r, c :: cs => (r.deriv c).matchesL cs

def rlit (c : Char) : Regex := .cls (.lit c)

def rstr (s : String) : Regex := s.data.foldr (fun c r => Regex.cat (rlit c) r) .eps

def rstrCI (s : String) : Regex := s.data.foldr (fun c r => Regex.cat (.cls (.cilit c)) r) .eps

def ralts : List Regex → Regex
  | [] => .emp
  | [r] => r
  | r :: rs => .alt r (ralts rs)

def rplus (r : Regex) : Regex := .cat r (.star r)

def ropt (r : Regex) : Regex := .alt r .eps

/-- `^regex$` semantics: the whole line must match. -/
def testWhole (r : Regex) (s : String) : Bool := r.matchesL s.data

/-- `^regex` semantics: a match starting at position 0. -/
def testAtStart (r : Regex) (s : String) : Bool :=
  (Regex.cat r (.star (.cls .anyChar))).matchesL s.data

/-- Unanchored `RegExp.test` semantics: a match anywhere in the line. -/
def testAnywhere (r : Regex) (s : String) : Bool :=
  (Regex.cat (.star (.cls .anyChar)) (Regex.cat r (.star (.cls .anyChar)))).matchesL s.data

def sdkKeywords : List String :=
  ["firebase", "AWS", "Azure", "amplify", "gapi", "Stripe", "Twilio"]

/-- Body of the SDK regex after `\b`: `(firebase|…|Twilio)[\s.]*\w*\s*\(.*\)`, case-insensitive. -/
def sdkCore : Regex :=
  .cat (ralts (sdkKeywords.map rstrCI))
    (.cat (.star (.cls .spaceOrDot))
      (.cat (.star (.cls .word))
        (.cat (.star (.cls .space))
          (.cat (rlit '(') (.cat (.star (.cls .dotAny)) (rlit ')'))))))

/-- `/\b(firebase|AWS|Azure|amplify|gapi|Stripe|Twilio)[\s.]*\w*\s*\(.*\)/i.test(line)`.
The leading `\b` before a word character means: the match starts at position 0
or right after a non-word character. -/
def sdkInitPattern (s : String) : Bool :=
  testAtStart sdkCore s || testAnywhere (.cat (.cls .nonWord) sdkCore) s

def globalAlias : Regex := ralts [rstr "window", rstr "globalThis", rstr "global"]

/-- `/(?:window|globalThis|global)\.[a-zA-Z0-9_]+\s*=/.test(line)`. -/
def globalAssignPattern (s : String) : Bool :=
  testAnywhere
    (.cat globalAlias
      (.cat (rlit '.') (.cat (rplus (.cls .word)) (.cat (.star (.cls .space)) (rlit '='))))) s

/-- `/(?:window|document)\.(addEventListener|on[a-zA-Z]+)\s*\(/.test(line)`. -/
def eventListenerPattern (s : String) : Bool :=
  testAnywhere
    (.cat (ralts [rstr "window", rstr "document"])
      (.cat (rlit '.')
        (.cat (ralts [rstr "addEventListener", .cat (rstr "on") (rplus (.cls .alpha))])
          (.cat (.star (.cls .space)) (rlit '('))))) s

/-- `/^[ \t]*[a-zA-Z0-9_$.]+\s*\(.*\);?\s*$/.test(line)`. -/
def topLevelCallPattern (s : String) : Bool :=
  testWhole
    (.cat (.star (ralts [rlit ' ', rlit '\t']))
      (.cat (rplus (.cls .callIdent))
        (.cat (.star (.cls .space))
          (.cat (rlit '(')
            (.cat (.star (.cls .dotAny))
              (.cat (rlit ')') (.cat (ropt (rlit ';')) (.star (.cls .space))))))))) s

/-- `/Object\.defineProperty\s*\(\s*window[ ,]/.test(line)`. -/
def definePropPattern (s : String) : Bool :=
  testAnywhere
    (.cat (rstr "Object.defineProperty")
      (.cat (.star (.cls .space))
        (.cat (rlit '(')
          (.cat (.star (.cls .space)) (.cat (rstr "window") (ralts [rlit ' ', rlit ','])))))) s

/-- `/(?:window|globalThis|global)\.[a-zA-Z0-9_]+\s*\./.test(line)`. -/
def globalMutationPattern (s : String) : Bool :=
  testAnywhere
    (.cat globalAlias
      (.cat (rlit '.') (.cat (rplus (.cls .word)) (.cat (.star (.cls .space)) (rlit '.'))))) s

/-- `SIDE_EFFECT_PATTERNS`, in source order. -/
def SIDE_EFFECT_PATTERNS : List (String → Bool) :=
  [sdkInitPattern, globalAssignPattern, eventListenerPattern,
   topLevelCallPattern, definePropPattern, globalMutationPattern]

def declWords : List String := ["function", "class", "const", "let", "var", "async"]

/-- `/^export\s+(default\s+)?(function|class|const|let|var|async|{)/.test(line)`. -/
def ignoreExportDecl (s : String) : Bool :=
  testAtStart
    (.cat (rstr "export")
      (.cat (rplus (.cls .space))
        (.cat (ropt (.cat (rstr "default") (rplus (.cls .space))))
          (ralts (declWords.map rstr ++ [rlit '{']))))) s

/-- `/^(function|class|const|let|var|async)\s/.test(line)`. -/
def ignoreDecl (s : String) : Bool :=
  testAtStart (.cat (ralts (declWords.map rstr)) (.cls .space)) s

/-- `/^\/\//.test(line)`. -/
def ignoreLineComment (s : String) : Bool := testAtStart (rstr "//") s

/-- `/^\s*\/\*/.test(line)`. -/
def ignoreBlockCommentOpen (s : String) : Bool :=
  testAtStart (.cat (.star (.cls .space)) (rstr "/*")) s

/-- `/^\s*\*\//.test(line)`. -/
def ignoreBlockCommentClose (s : String) : Bool :=
  testAtStart (.cat (.star (.cls .space)) (rstr "*/")) s

/-- `/^\s*\*/.test(line)`. -/
def ignoreBlockCommentLine (s : String) : Bool :=
  testAtStart (.cat (.star (.cls .space)) (rlit '*')) s

/-- `/^\s*$/.test(line)`. -/
def ignoreEmpty (s : String) : Bool := testWhole (.star (.cls .space)) s

/-- `IGNORE_PATTERNS`, in source order. -/
def IGNORE_PATTERNS : List (String → Bool) :=
  [ignoreExportDecl, ignoreDecl, ignoreLineComment, ignoreBlockCommentOpen,
   ignoreBlockCommentClose, ignoreBlockCommentLine, ignoreEmpty]

/-- `/^(export\s+)?(async\s+)?function\s|^(export\s+)?class\s/.test(trimmed)`. -/
def functionClassOpener (s : String) : Bool :=
  testAtStart
    (.alt
      (.cat (ropt (.cat (rstr "export") (rplus (.cls .space))))
        (.cat (ropt (.cat (rstr "async") (rplus (.cls .space))))
          (.cat (rstr "function") (.cls .space))))
      (.cat (ropt (.cat (rstr "export") (rplus (.cls .space))))
        (.cat (rstr "class") (.cls .space)))) s

/-- `explainSideEffect(line)`: the same regexes re-tested in the source's reason order. -/
def explainSideEffect (line : String) : String :=
  if sdkInitPattern line then "Service initialization at top level (e.g., SDK init)"
  else if globalAssignPattern line then "Assignment to window/global/globalThis at top level"
  else if eventListenerPattern line then "Top-level event listener setup"
  else if definePropPattern line then "Defining property on window at top level"
  else if globalMutationPattern line then
    "Direct mutation of window/global/globalThis property at top level"
  else if topLevelCallPattern line then
    "Function/method call at top level (not wrapped in function/class)"
  else "Possible side effect"

/-- JS `String.prototype.trim`: strip `\s` characters from both ends. -/
def trimJs (s : String) : String :=
  ⟨((s.data.dropWhile (fun c => isSpaceJs c)).reverse.dropWhile (fun c => isSpaceJs c)).reverse⟩

/-- One reported side effect, as pushed by `analyzeFile`. -/
structure Finding where
  file : String
  line : Nat
  code : String
  reason : String
deriving DecidableEq, Repr

/-- The per-file scanner state: `inFunctionOrClass` and `blockDepth`. -/
structure ScanState where
  inFunctionOrClass : Bool
  blockDepth : Int
deriving DecidableEq, Repr

/-- One iteration of the loop body of `analyzeFile` (`idx` is the 0-based index `i`). -/
def lineStep (st : ScanState) (filePath : String) (idx : Nat) (line : String) :
    ScanState × Option Finding :=
  let trimmed := trimJs line
  let inB := st.inFunctionOrClass || functionClassOpener trimmed
  if inB then
    let d₁ := if line.data.contains '{' then st.blockDepth + 1 else st.blockDepth
    let d₂ := if line.data.contains '}' then d₁ - 1 else d₁
    (⟨if d₂ ≤ 0 then false else inB, d₂⟩, none)
  else
    if IGNORE_PATTERNS.any (fun p => p line) then (st, none)
    else if SIDE_EFFECT_PATTERNS.any (fun p => p line) then
      (st, some ⟨filePath, idx + 1, line, explainSideEffect line⟩)
    else (st, none)

/-- The loop of `analyzeFile`, threading the scanner state; the optional
finding of each line is emitted before the rest of the file is scanned. -/
def analyzeLines (filePath : String) : ScanState → Nat → List String → List Finding
  | _, _, [] => []
  | st, idx, line :: rest =>
    (lineStep st filePath idx line).2.toList ++
      analyzeLines filePath (lineStep st filePath idx line).1 (idx + 1) rest

/-- `analyzeFile`: fresh state, lines scanned in order. -/
def analyzeFile (filePath : String) (lines : List String) : List Finding :=
  analyzeLines filePath ⟨false, 0⟩ 0 lines

/-- The aggregation loop of `main`: findings concatenated in file order
(`if (findings.length) allFindings = allFindings.concat(findings)`). -/
def analyzeFiles (files : List (String × List String)) : List Finding :=
  files.foldl
    (fun acc f =>
      let fs := analyzeFile f.1 f.2
      if fs.length ≠ 0 then acc ++ fs else acc) []

/-- Derivative normal form of the `^`-anchored padded SDK search regex after
consuming the keyword prefix `aws` (used to reason about arbitrary identifier
tails). -/
def sdkAfterKw : Regex :=
  .cat
    (.cat (.star (.cls .spaceOrDot))
      (.cat (.star (.cls .word))
        (.cat (.star (.cls .space))
          (.cat (.cls (.lit '('))
            (.cat (.star (.cls .dotAny)) (.cls (.lit ')')))))))
    (.star (.cls .anyChar))

/-- Derivative normal form of `sdkAfterKw` after one further word character. -/
def sdkAfterKwW : Regex :=
  .cat
    (.cat (.star (.cls .word))
      (.cat (.star (.cls .space))
        (.cat (.cls (.lit '('))
          (.cat (.star (.cls .dotAny)) (.cls (.lit ')'))))))
    (.star (.cls .anyChar))

/-! ### Helper lemmas -/

theorem matchesL_emp (l : List Char) : Regex.emp.matchesL l = false := by
  induction l with
  | nil => rfl
  | cons c cs ih => exact ih

theorem lineStep_eq_some (st : ScanState) (fp : String) (idx : Nat) (line : String)
    (f : Finding) (h : (lineStep st fp idx line).2 = some f) :
    SIDE_EFFECT_PATTERNS.any (fun p => p line) = true ∧
      f = ⟨fp, idx + 1, line, explainSideEffect line⟩ := by
  simp only [lineStep] at h
  by_cases h1 : (st.inFunctionOrClass || functionClassOpener (trimJs line)) = true
  · rw [if_pos h1] at h
    simp at h
  · rw [if_neg h1] at h
    by_cases h2 : IGNORE_PATTERNS.any (fun p => p line) = true
    · rw [if_pos h2] at h
      simp at h
    · rw [if_neg h2] at h
      by_cases h3 : SIDE_EFFECT_PATTERNS.any (fun p => p line) = true
      · rw [if_pos h3] at h
        simp only [Option.some.injEq] at h
        exact ⟨h3, h.symm⟩
      · rw [if_neg h3] at h
        simp at h

theorem explain_ne_fallback (line : String)
    (h : SIDE_EFFECT_PATTERNS.any (fun p => p line) = true) :
    explainSideEffect line ≠ "Possible side effect" := by
  simp only [SIDE_EFFECT_PATTERNS, List.any_cons, List.any_nil, Bool.or_eq_true,
    Bool.or_false] at h
  unfold explainSideEffect
  by_cases s1 : sdkInitPattern line = true
  · rw [if_pos s1]; decide
  · rw [if_neg s1]
    by_cases s2 : globalAssignPattern line = true
    · rw [if_pos s2]; decide
    · rw [if_neg s2]
      by_cases s3 : eventListenerPattern line = true
      · rw [if_pos s3]; decide
      · rw [if_neg s3]
        by_cases s4 : definePropPattern line = true
        · rw [if_pos s4]; decide
        · rw [if_neg s4]
          by_cases s5 : globalMutationPattern line = true
          · rw [if_pos s5]; decide
          · rw [if_neg s5]
            by_cases s6 : topLevelCallPattern line = true
            · rw [if_pos s6]; decide
            · rw [if_neg s6]
              rcases h with h | h | h | h | h | h <;> contradiction

/-! ### Claim theorems -/

/-- C1: the spec (and the README's example output) says the module-scope line
`AWS.config.update({ region: "us-east-1" });` is matched by the SDK/service
initialization rule and receives the service-initialization reason.  The code
disagrees: `[\s.]*\w*` in the SDK regex only allows a single identifier segment
after the keyword, so the two-segment chain `.config.update` is not matched
and the finding instead carries the generic call reason. -/
theorem claim1_aws_config_update_gets_call_reason :
    analyzeFile "scenarioB.js" ["AWS.config.update(\x7b region: \"us-east-1\" \x7d);"] =
      [⟨"scenarioB.js", 1, "AWS.config.update(\x7b region: \"us-east-1\" \x7d);",
        "Function/method call at top level (not wrapped in function/class)"⟩] ∧
    sdkInitPattern "AWS.config.update(\x7b region: \"us-east-1\" \x7d);" = false ∧
    "Function/method call at top level (not wrapped in function/class)" ≠
      "Service initialization at top level (e.g., SDK init)" := by
  refine ⟨rfl, rfl, ?_⟩
  decide

/-- C2: a line whose raw text matches some ignore pattern never yields a
finding, whatever the scanner state (ignore rules dominate side-effect rules). -/
theorem claim2_ignore_dominates (st : ScanState) (fp : String) (idx : Nat) (line : String)
    (h : IGNORE_PATTERNS.any (fun p => p line) = true) :
    (lineStep st fp idx line).2 = none := by
  simp only [lineStep]
  by_cases h1 : (st.inFunctionOrClass || functionClassOpener (trimJs line)) = true
  · rw [if_pos h1]
  · rw [if_neg h1, if_pos h]

/-- Witness for C2 at the declaration line `const x = 5;`. -/
theorem claim2_witness :
    (lineStep ⟨false, 0⟩ "a.js" 0 "const x = 5;").2 = none :=
  claim2_ignore_dominates ⟨false, 0⟩ "a.js" 0 "const x = 5;" rfl

/-- C3: any line that the block tracker regards as inside a function/class
block (the state flag already set, or the line itself opening a block) yields
no finding; and the three-line Scenario D input yields zero findings. -/
theorem claim3_block_lines_suppressed :
    (∀ (st : ScanState) (fp : String) (idx : Nat) (line : String),
        (st.inFunctionOrClass || functionClassOpener (trimJs line)) = true →
        (lineStep st fp idx line).2 = none) ∧
    analyzeFile "scenarioD.js"
        ["function init() \x7b", "  window.myGlobal = true;", "\x7d"] = [] := by
  constructor
  · intro st fp idx line h
    simp only [lineStep]
    rw [if_pos h]
  · rfl

/-- Witness for C3 on the body line of Scenario D with the tracker state set. -/
theorem claim3_witness :
    (lineStep ⟨true, 1⟩ "scenarioD.js" 1 "  window.myGlobal = true;").2 = none :=
  claim3_block_lines_suppressed.1 ⟨true, 1⟩ "scenarioD.js" 1 "  window.myGlobal = true;" rfl

/-- C4: while the tracker is inside a block, the depth update is a presence
check per brace kind (+1 if the line contains any `{`, −1 if it contains any
`}`, so a line with both nets zero), the flag drops to false exactly when the
updated depth is ≤ 0, and such a line never yields a finding. -/
theorem claim4_depth_presence_update (st : ScanState) (fp : String) (idx : Nat) (line : String)
    (h : (st.inFunctionOrClass || functionClassOpener (trimJs line)) = true) :
    (lineStep st fp idx line).1.blockDepth =
        st.blockDepth + (if line.data.contains '{' then 1 else 0)
          - (if line.data.contains '}' then 1 else 0) ∧
    (lineStep st fp idx line).1.inFunctionOrClass =
        decide (0 < st.blockDepth + (if line.data.contains '{' then 1 else 0)
          - (if line.data.contains '}' then 1 else 0)) ∧
    (lineStep st fp idx line).2 = none := by
  simp only [lineStep]
  rw [if_pos h]
  refine ⟨?_, ?_, rfl⟩
  · split <;> split <;> simp
  · split <;> split <;> rename_i h1 h2 <;> simp only [h] <;> split <;> rename_i h3 <;>
      simp_all

/-- Witness for C4: a line containing both braces nets zero while in a block,
which closes the block on that same line. -/
theorem claim4_witness :
    (lineStep ⟨true, 0⟩ "k.js" 7 "\x7d else \x7b").1.blockDepth = 0 ∧
    (lineStep ⟨true, 0⟩ "k.js" 7 "\x7d else \x7b").1.inFunctionOrClass = false ∧
    (lineStep ⟨true, 0⟩ "k.js" 7 "\x7d else \x7b").2 = none := by
  obtain ⟨h1, h2, h3⟩ := claim4_depth_presence_update ⟨true, 0⟩ "k.js" 7 "\x7d else \x7b" rfl
  refine ⟨?_, ?_, h3⟩
  · rw [h1]; decide
  · rw [h2]; decide

/-- C7: the scan is a pure function of the input lines, so scanning the same
fixed input twice produces identical finding sequences. -/
theorem claim7_deterministic (fp : String) (lines : List String) :
    analyzeFile fp lines = analyzeFile fp lines := rfl

/-- C10: an arrow-function line `const f = () => {` does not match the
function/class opener, is suppressed by the declaration ignore rule instead,
and its body is treated as module scope: the three-line input produces exactly
one finding, for the assignment line. -/
theorem claim10_arrow_body_not_tracked :
    functionClassOpener (trimJs "const f = () => \x7b") = false ∧
    IGNORE_PATTERNS.any (fun p => p "const f = () => \x7b") = true ∧
    analyzeFile "j.js" ["const f = () => \x7b", "window.x = true;", "\x7d"] =
      [⟨"j.js", 2, "window.x = true;",
        "Assignment to window/global/globalThis at top level"⟩] :=
  ⟨rfl, rfl, rfl⟩

theorem mem_toList_eq (o : Option Finding) (f : Finding) (h : f ∈ o.toList) : o = some f := by
  cases o <;> simp_all

theorem analyzeLines_reason (fp : String) :
    ∀ (lines : List String) (st : ScanState) (idx : Nat) (f : Finding),
      f ∈ analyzeLines fp st idx lines → f.reason ≠ "Possible side effect" := by
  intro lines
  induction lines with
  | nil => intro st idx f hf; simp [analyzeLines] at hf
  | cons line rest ih =>
    intro st idx f hf
    simp only [analyzeLines, List.mem_append] at hf
    rcases hf with hf | hf
    · have hsome := mem_toList_eq _ f hf
      obtain ⟨hany, hfe⟩ := lineStep_eq_some st fp idx line f hsome
      rw [hfe]
      exact explain_ne_fallback line hany
    · exact ih (lineStep st fp idx line).1 (idx + 1) f hf

theorem analyzeLines_line_lb (fp : String) :
    ∀ (lines : List String) (st : ScanState) (idx : Nat) (f : Finding),
      f ∈ analyzeLines fp st idx lines → idx + 1 ≤ f.line := by
  intro lines
  induction lines with
  | nil => intro st idx f hf; simp [analyzeLines] at hf
  | cons line rest ih =>
    intro st idx f hf
    simp only [analyzeLines, List.mem_append] at hf
    rcases hf with hf | hf
    · have hsome := mem_toList_eq _ f hf
      obtain ⟨_, hfe⟩ := lineStep_eq_some st fp idx line f hsome
      rw [hfe]
    · have := ih (lineStep st fp idx line).1 (idx + 1) f hf
      omega

theorem analyzeLines_sorted (fp : String) :
    ∀ (lines : List String) (st : ScanState) (idx : Nat),
      (analyzeLines fp st idx lines).Pairwise (fun a b => a.line ≤ b.line) := by
  intro lines
  induction lines with
  | nil => intro st idx; simp [analyzeLines]
  | cons line rest ih =>
    intro st idx
    simp only [analyzeLines]
    rw [List.pairwise_append]
    refine ⟨?_, ih _ _, ?_⟩
    · cases (lineStep st fp idx line).2 <;> simp
    · intro a ha b hb
      have hsome := mem_toList_eq _ a ha
      obtain ⟨_, hfe⟩ := lineStep_eq_some st fp idx line a hsome
      have hb2 := analyzeLines_line_lb fp rest _ _ b hb
      rw [hfe]
      show idx + 1 ≤ b.line
      omega

theorem analyzeFiles_foldl (files : List (String × List String)) :
    ∀ acc : List Finding,
      files.foldl
        (fun acc f =>
          let fs := analyzeFile f.1 f.2
          if fs.length ≠ 0 then acc ++ fs else acc) acc =
      acc ++ (files.map fun pr => analyzeFile pr.1 pr.2).flatten := by
  induction files with
  | nil => intro acc; simp
  | cons pr rest ih =>
    intro acc
    simp only [List.foldl_cons, List.map_cons, List.flatten_cons]
    split
    · rw [ih, List.append_assoc]
    · rename_i hl
      have h0 : analyzeFile pr.1 pr.2 = [] := by
        have : (analyzeFile pr.1 pr.2).length = 0 := by omega
        exact List.length_eq_zero.mp this
      rw [ih, h0]
      simp

/-- C5: no emitted finding ever carries the fallback reason string: every
finding comes from a line some side-effect pattern matched, and each of the
six patterns is re-recognized by a reason branch of `explainSideEffect`. -/
theorem claim5_fallback_unreachable (fp : String) (lines : List String) (f : Finding)
    (hf : f ∈ analyzeFile fp lines) : f.reason ≠ "Possible side effect" :=
  analyzeLines_reason fp lines ⟨false, 0⟩ 0 f hf

/-- Witness for C5 on the catch-all Scenario F line `doSomething();`. -/
theorem claim5_witness :
    (⟨"w.js", 1, "doSomething();",
      "Function/method call at top level (not wrapped in function/class)"⟩ : Finding).reason ≠
      "Possible side effect" :=
  claim5_fallback_unreachable "w.js" ["doSomething();"] _ (by decide)

/-- C6: the aggregated output is the concatenation of the per-file finding
sequences in input order, each file is emitted in non-decreasing line order,
and nothing is deduplicated: the same file supplied twice contributes its
findings twice. -/
theorem claim6_aggregation_order :
    (∀ files : List (String × List String),
        analyzeFiles files = (files.map fun pr => analyzeFile pr.1 pr.2).flatten) ∧
    (∀ (fp : String) (lines : List String),
        (analyzeFile fp lines).Pairwise (fun a b => a.line ≤ b.line)) ∧
    (∀ (fp : String) (lines : List String),
        analyzeFiles [(fp, lines), (fp, lines)] =
          analyzeFile fp lines ++ analyzeFile fp lines) := by
  have h1 : ∀ files : List (String × List String),
      analyzeFiles files = (files.map fun pr => analyzeFile pr.1 pr.2).flatten := by
    intro files
    rw [analyzeFiles, analyzeFiles_foldl]
    simp
  refine ⟨h1, fun fp lines => analyzeLines_sorted fp lines ⟨false, 0⟩ 0, fun fp lines => ?_⟩
  rw [h1]
  simp

/-- C8: a declaration opener with its `{` on the next line opens and closes
the tracked block on the same line — `inBlock` falls back to false and the
depth stays 0 — so the function body is then scanned as module scope, as the
four-line example shows (the body assignment is reported). -/
theorem claim8_opener_without_brace :
    (∀ (st : ScanState) (fp : String) (idx : Nat) (line : String),
        st.inFunctionOrClass = false → st.blockDepth = 0 →
        functionClassOpener (trimJs line) = true →
        line.data.contains '{' = false → line.data.contains '}' = false →
        lineStep st fp idx line = (⟨false, 0⟩, none)) ∧
    analyzeFile "g.js" ["function f()", "\x7b", "window.x = 1;", "\x7d"] =
      [⟨"g.js", 3, "window.x = 1;",
        "Assignment to window/global/globalThis at top level"⟩] := by
  constructor
  · intro st fp idx line h1 h2 h3 h4 h5
    simp only [lineStep]
    rw [h1, h3, h4, h5, h2]
    simp
  · rfl

/-- Witness for C8 at the opener line `function f()`. -/
theorem claim8_witness :
    lineStep ⟨false, 0⟩ "g.js" 0 "function f()" = (⟨false, 0⟩, none) :=
  claim8_opener_without_brace.1 ⟨false, 0⟩ "g.js" 0 "function f()" rfl rfl rfl rfl rfl

theorem word_not_space (c : Char) (h : isWordChar c = true) : isSpaceJs c = false := by
  cases hb : isSpaceJs c with
  | false => rfl
  | true =>
    exfalso
    simp only [isSpaceJs, Bool.or_eq_true, decide_eq_true_eq, or_assoc] at hb
    rcases hb with e|e|e|e|e|e|e|e|e|e|e|e|e|e|e|e|e|e|e|e|e|e|e|e|e <;>
      exact absurd (e ▸ h) (by decide)

theorem sdkAfterKw_deriv_word (c : Char) (h : isWordChar c = true) :
    sdkAfterKw.deriv c = sdkAfterKwW := by
  have h1 : CC.holds .word c = true := h
  have h2 : CC.holds .space c = false := word_not_space c h
  have h3 : CC.holds (.lit '(') c = false :=
    decide_eq_false fun e => absurd (e ▸ h) (by decide)
  have hd : decide (c = '.') = false :=
    decide_eq_false fun e => absurd (e ▸ h) (by decide)
  have h4 : CC.holds .spaceOrDot c = false := by
    show (isSpaceJs c || decide (c = '.')) = false
    rw [word_not_space c h, hd]
    decide
  have hn : decide (c = '\n') = false :=
    decide_eq_false fun e => absurd (e ▸ h) (by decide)
  have hr : decide (c = '\r') = false :=
    decide_eq_false fun e => absurd (e ▸ h) (by decide)
  have hls : decide (c = '\u2028') = false :=
    decide_eq_false fun e => absurd (e ▸ h) (by decide)
  have hps : decide (c = '\u2029') = false :=
    decide_eq_false fun e => absurd (e ▸ h) (by decide)
  have h5 : CC.holds .dotAny c = true := by
    show (!(decide (c = '\n') || decide (c = '\r') ||
        decide (c = '\u2028') || decide (c = '\u2029'))) = true
    rw [hn, hr, hls, hps]
    decide
  have h6 : CC.holds (.lit ')') c = false :=
    decide_eq_false fun e => absurd (e ▸ h) (by decide)
  have h7 : CC.holds .anyChar c = true := rfl
  simp only [sdkAfterKw, sdkAfterKwW, Regex.deriv, Regex.nullable, h1, h2, h3, h4, h5, h6, h7]
  decide

theorem sdkAfterKwW_deriv_word (c : Char) (h : isWordChar c = true) :
    sdkAfterKwW.deriv c = sdkAfterKwW := by
  have h1 : CC.holds .word c = true := h
  have h2 : CC.holds .space c = false := word_not_space c h
  have h3 : CC.holds (.lit '(') c = false :=
    decide_eq_false fun e => absurd (e ▸ h) (by decide)
  have hn : decide (c = '\n') = false :=
    decide_eq_false fun e => absurd (e ▸ h) (by decide)
  have hr : decide (c = '\r') = false :=
    decide_eq_false fun e => absurd (e ▸ h) (by decide)
  have hls : decide (c = '\u2028') = false :=
    decide_eq_false fun e => absurd (e ▸ h) (by decide)
  have hps : decide (c = '\u2029') = false :=
    decide_eq_false fun e => absurd (e ▸ h) (by decide)
  have h5 : CC.holds .dotAny c = true := by
    show (!(decide (c = '\n') || decide (c = '\r') ||
        decide (c = '\u2028') || decide (c = '\u2029'))) = true
    rw [hn, hr, hls, hps]
    decide
  have h6 : CC.holds (.lit ')') c = false :=
    decide_eq_false fun e => absurd (e ▸ h) (by decide)
  have h7 : CC.holds .anyChar c = true := rfl
  simp only [sdkAfterKwW, Regex.deriv, Regex.nullable, h1, h2, h3, h5, h6, h7]
  decide

theorem matchesL_sdkAfterKwW :
    ∀ (tail : List Char), (∀ c ∈ tail, isWordChar c = true) →
      sdkAfterKwW.matchesL (tail ++ ['(', ')', ';']) = true := by
  intro tail
  induction tail with
  | nil => intro _; decide
  | cons c tl ih =>
    intro h
    have hc : isWordChar c = true := h c (List.mem_cons_self c tl)
    show (sdkAfterKwW.deriv c).matchesL (tl ++ ['(', ')', ';']) = true
    rw [sdkAfterKwW_deriv_word c hc]
    exact ih fun x hx => h x (List.mem_cons_of_mem c hx)

theorem matchesL_sdkAfterKw (tail : List Char) (h : ∀ c ∈ tail, isWordChar c = true) :
    sdkAfterKw.matchesL (tail ++ ['(', ')', ';']) = true := by
  cases tail with
  | nil => decide
  | cons c tl =>
    have hc : isWordChar c = true := h c (List.mem_cons_self c tl)
    show (sdkAfterKw.deriv c).matchesL (tl ++ ['(', ')', ';']) = true
    rw [sdkAfterKw_deriv_word c hc]
    exact matchesL_sdkAfterKwW tl fun x hx => h x (List.mem_cons_of_mem c hx)

theorem tracker_aw (rest : List Char) :
    functionClassOpener ⟨'a' :: 'w' :: rest⟩ = false :=
  matchesL_emp rest

theorem ignores_aw (rest : List Char) :
    IGNORE_PATTERNS.any (fun p => p ⟨'a' :: 'w' :: rest⟩) = false := by
  have e1 : ignoreExportDecl ⟨'a' :: 'w' :: rest⟩ = false := matchesL_emp ('w' :: rest)
  have e2 : ignoreDecl ⟨'a' :: 'w' :: rest⟩ = false := matchesL_emp rest
  have e3 : ignoreLineComment ⟨'a' :: 'w' :: rest⟩ = false := matchesL_emp ('w' :: rest)
  have e4 : ignoreBlockCommentOpen ⟨'a' :: 'w' :: rest⟩ = false := matchesL_emp ('w' :: rest)
  have e5 : ignoreBlockCommentClose ⟨'a' :: 'w' :: rest⟩ = false := matchesL_emp ('w' :: rest)
  have e6 : ignoreBlockCommentLine ⟨'a' :: 'w' :: rest⟩ = false := matchesL_emp ('w' :: rest)
  have e7 : ignoreEmpty ⟨'a' :: 'w' :: rest⟩ = false := matchesL_emp ('w' :: rest)
  simp [IGNORE_PATTERNS, e1, e2, e3, e4, e5, e6, e7]

theorem trimJs_aws (tail : List Char) :
    trimJs ⟨'a' :: 'w' :: 's' :: (tail ++ ['(', ')', ';'])⟩ =
      ⟨'a' :: 'w' :: 's' :: (tail ++ ['(', ')', ';'])⟩ := by
  simp [trimJs, List.dropWhile_cons, List.reverse_append, List.reverse_cons,
    List.append_assoc, List.cons_append, List.nil_append,
    show isSpaceJs 'a' = false from rfl, show isSpaceJs ';' = false from rfl]

/-- C9: the SDK rule matches on a case-insensitive keyword prefix at a word
boundary, not a whole identifier: a module-scope call `aws<tail>();` for any
word-character tail is reported with the service-initialization reason (first
conjunct, with lowercase `aws` matching the keyword `AWS` case-insensitively);
`FIREBASEinit();` likewise; and without a word boundary (`myawsHelper();`) the
SDK rule does not apply and the generic call reason is used instead. -/
theorem claim9_sdk_keyword_prefix_match :
    (∀ (fp : String) (tail : List Char), (∀ c ∈ tail, isWordChar c = true) →
        analyzeFile fp [⟨'a' :: 'w' :: 's' :: (tail ++ ['(', ')', ';'])⟩] =
          [⟨fp, 1, ⟨'a' :: 'w' :: 's' :: (tail ++ ['(', ')', ';'])⟩,
            "Service initialization at top level (e.g., SDK init)"⟩]) ∧
    analyzeFile "x.js" ["FIREBASEinit();"] =
      [⟨"x.js", 1, "FIREBASEinit();",
        "Service initialization at top level (e.g., SDK init)"⟩] ∧
    analyzeFile "x.js" ["myawsHelper();"] =
      [⟨"x.js", 1, "myawsHelper();",
        "Function/method call at top level (not wrapped in function/class)"⟩] := by
  refine ⟨?_, rfl, rfl⟩
  intro fp tail h
  have h1 : testAtStart sdkCore ⟨'a' :: 'w' :: 's' :: (tail ++ ['(', ')', ';'])⟩ = true :=
    matchesL_sdkAfterKw tail h
  have hsdk : sdkInitPattern ⟨'a' :: 'w' :: 's' :: (tail ++ ['(', ')', ';'])⟩ = true := by
    unfold sdkInitPattern
    rw [h1]
    simp
  have htr : functionClassOpener
      (trimJs ⟨'a' :: 'w' :: 's' :: (tail ++ ['(', ')', ';'])⟩) = false := by
    rw [trimJs_aws]
    exact tracker_aw ('s' :: (tail ++ ['(', ')', ';']))
  have hig := ignores_aw ('s' :: (tail ++ ['(', ')', ';']))
  have hany : SIDE_EFFECT_PATTERNS.any
      (fun p => p ⟨'a' :: 'w' :: 's' :: (tail ++ ['(', ')', ';'])⟩) = true := by
    simp [SIDE_EFFECT_PATTERNS, hsdk]
  have hexp : explainSideEffect ⟨'a' :: 'w' :: 's' :: (tail ++ ['(', ')', ';'])⟩ =
      "Service initialization at top level (e.g., SDK init)" := by
    unfold explainSideEffect
    rw [if_pos hsdk]
  simp [analyzeFile, analyzeLines, lineStep, htr, hig, hany, hexp]

/-- Witness for C9 at the tail `Helper`, i.e. the line `awsHelper();`. -/
theorem claim9_witness :
    analyzeFile "h.js" ["awsHelper();"] =
      [⟨"h.js", 1, "awsHelper();",
        "Service initialization at top level (e.g., SDK init)"⟩] :=
  claim9_sdk_keyword_prefix_match.1 "h.js" "Helper".data (by decide)

end SideEffectsLinter
